import Mathlib

/-!
Shallow embedding of the optuna percentile pruner and trial data model
(`optuna/pruners/percentile.py`, `optuna/structs.py`).

Python floats are modelled as rationals extended with a NaN element
(`Val`); exact rational arithmetic realises numpy's linear-interpolation
percentile.  Python exceptions (`ValueError`, assertion failures,
`KeyError`) are modelled by `Option`/`Except`: a `none` / `.error` result
means the corresponding Python call raises.
-/

/-- A Python float as used by the pruner: either NaN or an exact rational. -/
inductive Val where
  | nan : Val
  | num : ℚ → Val
deriving DecidableEq, Repr

/-- `math.isnan`. -/
def Val.isNan : Val → Bool
  | .nan => true
  | .num _ => false

/-- The rational payload of a non-NaN value. -/
def Val.toNum : Val → Option ℚ
  | .nan => none
  | .num q => some q

/-- IEEE-style strict `<` on floats: any comparison involving NaN is false. -/
def Val.lt : Val → Val → Bool
  | .num a, .num b => decide (a < b)
  | _, _ => false

/-- `TrialState` from `optuna/structs.py`. -/
inductive TrialState where
  | running : TrialState
  | complete : TrialState
  | pruned : TrialState
  | fail : TrialState
deriving DecidableEq, Repr

/-- `TrialState.is_finished`: every state except RUNNING is terminal. -/
def TrialState.is_finished (s : TrialState) : Bool :=
  decide (s ≠ TrialState.running)

/-- `StudyDirection` from `optuna/structs.py`. -/
inductive StudyDirection where
  | not_set : StudyDirection
  | minimize : StudyDirection
  | maximize : StudyDirection
deriving DecidableEq, Repr

/-- Modelled from the spec: `optuna/distributions.py` is not part of the
sources, so a distribution is abstracted to the two operations `_validate`
uses on it — conversion of a parameter value to its internal numeric
representation and a containment test on that representation
("value lies within the range described by distributions[name] after
conversion to that distribution's internal numeric representation"). -/
structure BaseDistribution where
  to_internal_repr : ℚ → ℚ
  _contains : ℚ → Bool

/-- `FrozenTrial` from `optuna/structs.py`.  Dictionaries are modelled as
association lists; datetimes are abstract (any `Nat` timestamp); parameter
values are modelled as rationals. -/
structure FrozenTrial where
  number : Int
  state : TrialState
  value : Option ℚ
  datetime_start : Option Nat
  datetime_complete : Option Nat
  params : List (String × ℚ)
  distributions : List (String × BaseDistribution)
  user_attrs : List (String × String)
  system_attrs : List (String × String)
  intermediate_values : List (Int × Val)
  trial_id : Int

/-- `FrozenTrial.last_step`: `None` when no intermediate value has been
reported, otherwise the maximum reported step. -/
def FrozenTrial.last_step (t : FrozenTrial) : Option Int :=
  match t.intermediate_values.map Prod.fst with
  | [] => none
  | k :: ks => some (ks.foldl max k)

/-- The parameter-consistency loop at the end of `FrozenTrial._validate`:
look up each parameter's distribution and check containment of the value's
internal representation.  A missing key is a `KeyError`, an out-of-range
value a `ValueError`; both raise. -/
def checkParams : List (String × ℚ) → List (String × BaseDistribution) →
    Except String Unit
  | [], _ => .ok ()
  | (n, v) :: rest, dists =>
    match dists.lookup n with
    | none => .error ("KeyError: " ++ n)
    | some d =>
      if d._contains (d.to_internal_repr v) then checkParams rest dists
      else .error ("The value of parameter " ++ n ++
        " is not contained in the distribution.")

/-- `FrozenTrial._validate` from `optuna/structs.py`, performing its checks
in source order and raising (`.error`) at the first violated one. -/
def FrozenTrial._validate (t : FrozenTrial) : Except String Unit :=
  if t.datetime_start = none then
    .error "datetime_start is supposed to be set."
  else if t.state.is_finished ∧ t.datetime_complete = none then
    .error "datetime_complete is supposed to be set for a finished trial."
  else if ¬ t.state.is_finished ∧ t.datetime_complete ≠ none then
    .error "datetime_complete is supposed to not be set for a finished trial."
  else if t.state = TrialState.complete ∧ t.value = none then
    .error "value is supposed to be set for a complete trial."
  else if (t.params.map Prod.fst).toFinset ≠ (t.distributions.map Prod.fst).toFinset then
    .error "Inconsistent parameters and distributions."
  else
    checkParams t.params t.distributions

/-- The study snapshot as consumed by `PercentilePruner.prune`:
its ordered trial list and its direction. -/
structure Study where
  trials : List FrozenTrial
  direction : StudyDirection

/-- The comprehension `[t for t in all_trials if t.state == TrialState.COMPLETE]`,
computed both at the top of `prune` and inside
`_get_percentile_intermediate_result_over_trials`. -/
def completedTrials (trials : List FrozenTrial) : List FrozenTrial :=
  trials.filter (fun t => decide (t.state = TrialState.complete))

/-- `n_trials` at the top of `PercentilePruner.prune`: the number of
completed trials in the snapshot. -/
def completedCount (study : Study) : Nat :=
  (completedTrials study.trials).length

/-- The list comprehension inside
`_get_percentile_intermediate_result_over_trials`: the intermediate values
recorded at exactly `step` by the completed trials. -/
def valuesAtStep (trials : List FrozenTrial) (step : Int) : List Val :=
  (completedTrials trials).filterMap (fun t => t.intermediate_values.lookup step)

/-- `_get_best_intermediate_result_over_steps`: `np.nanmax` / `np.nanmin`
over the trial's reported intermediate values.  NaNs are ignored unless
every value is NaN (then the result is NaN); an empty value list raises
(`none`). -/
def _get_best_intermediate_result_over_steps (trial : FrozenTrial)
    (direction : StudyDirection) : Option Val :=
  let values := trial.intermediate_values.map Prod.snd
  match values with
  | [] => none
  | _ :: _ =>
    match values.filterMap Val.toNum with
    | [] => some Val.nan
    | q :: qs =>
      if direction = StudyDirection.maximize then some (Val.num (qs.foldl max q))
      else some (Val.num (qs.foldl min q))

/-- `np.nanpercentile` on a one-dimensional array with the default linear
interpolation: drop NaNs, sort, and interpolate at virtual index
`q/100 * (n-1)`.  An empty or all-NaN array yields NaN; a percentile
outside `[0, 100]` raises (`none`). -/
def nanpercentile (values : List Val) (q : ℚ) : Option Val :=
  if q < 0 ∨ 100 < q then none
  else
    match List.insertionSort (· ≤ ·) (values.filterMap Val.toNum) with
    | [] => some Val.nan
    | x :: xs =>
      let n := (x :: xs).length
      let virt : ℚ := q / 100 * ((n : ℚ) - 1)
      let k : ℕ := (⌊virt⌋).toNat
      let lo := (x :: xs).getD k 0
      let hi := (x :: xs).getD (k + 1) lo
      some (Val.num (lo + (virt - (k : ℚ)) * (hi - lo)))

/-- `_get_percentile_intermediate_result_over_trials`: the percentile of
the completed trials' intermediate values at `step`, with the percentile
index flipped to `100 - percentile` for a maximising study.  Raises
(`none`) when no trial has completed. -/
def _get_percentile_intermediate_result_over_trials
    (all_trials : List FrozenTrial) (direction : StudyDirection)
    (step : Int) (percentile : ℚ) : Option Val :=
  if (completedTrials all_trials).isEmpty then none
  else
    nanpercentile (valuesAtStep all_trials step)
      (if direction = StudyDirection.maximize then 100 - percentile else percentile)

/-- `_is_first_in_interval_step`: decides whether `step` is the first
reported step inside its interval window.  `none` models the Python
exceptions: division by zero when `interval_steps = 0`, and the
`assert nearest_lower_pruning_step >= 0` failure.  Python's `//` is floor
division, i.e. `Int.fdiv`. -/
def _is_first_in_interval_step (step : Int) (intermediate_steps : List Int)
    (n_warmup_steps interval_steps : Int) : Option Bool :=
  if interval_steps = 0 then none
  else
    let nearest_lower_pruning_step :=
      (step - n_warmup_steps - 1).fdiv interval_steps * interval_steps +
        n_warmup_steps + 1
    if nearest_lower_pruning_step < 0 then none
    else
      let second_last_step := intermediate_steps.foldl
        (fun second_last s => if second_last < s ∧ s ≠ step then s else second_last)
        (-1)
      some (decide (second_last_step < nearest_lower_pruning_step))

/-- The four configuration fields of `PercentilePruner`. -/
structure PercentilePruner where
  percentile : ℚ
  n_startup_trials : Int
  n_warmup_steps : Int
  interval_steps : Int
deriving DecidableEq, Repr

/-- `PercentilePruner.__init__`: eager validation of the four parameters,
raising `ValueError` (`.error`) on the first violated bound, otherwise
storing them unchanged. -/
def PercentilePruner.init (percentile : ℚ)
    (n_startup_trials n_warmup_steps interval_steps : Int) :
    Except String PercentilePruner :=
  if ¬ (0 ≤ percentile ∧ percentile ≤ 100) then
    .error "Percentile must be between 0 and 100 inclusive."
  else if n_startup_trials < 0 then
    .error "Number of startup trials cannot be negative."
  else if n_warmup_steps < 0 then
    .error "Number of warmup steps cannot be negative."
  else if interval_steps < 1 then
    .error "Pruning interval steps must be at least 1."
  else
    .ok ⟨percentile, n_startup_trials, n_warmup_steps, interval_steps⟩

/-- Lines 145–152 of `PercentilePruner.prune`: the percentile threshold,
its NaN short-circuit, and the final strict comparison (`best < p` for
MAXIMIZE, `best > p` otherwise). -/
def prune_after_best (pruner : PercentilePruner) (study : Study)
    (step : Int) (best : Val) : Option Bool :=
  match _get_percentile_intermediate_result_over_trials
      study.trials study.direction step pruner.percentile with
  | none => none
  | some p =>
    if p.isNan then some false
    else if study.direction = StudyDirection.maximize then
      some (Val.lt best p)
    else some (Val.lt p best)

/-- Lines 140–152 of `PercentilePruner.prune`: best intermediate value,
its NaN short-circuit (prune immediately), then the threshold comparison. -/
def prune_after_interval (pruner : PercentilePruner) (study : Study)
    (trial : FrozenTrial) (step : Int) : Option Bool :=
  match _get_best_intermediate_result_over_steps trial study.direction with
  | none => none
  | some best =>
    if best.isNan then some true
    else prune_after_best pruner study step best

/-- Lines 135–152 of `PercentilePruner.prune`: the interval-step gate
followed by the tail of the method. -/
def prune_after_warmup (pruner : PercentilePruner) (study : Study)
    (trial : FrozenTrial) (step : Int) : Option Bool :=
  match _is_first_in_interval_step step (trial.intermediate_values.map Prod.fst)
      pruner.n_warmup_steps pruner.interval_steps with
  | none => none
  | some b =>
    if b then prune_after_interval pruner study trial step else some false

/-- `PercentilePruner.prune`: the gate sequence of the source method.
`some b` is the returned boolean; `none` means the call raises. -/
def PercentilePruner.prune (pruner : PercentilePruner) (study : Study)
    (trial : FrozenTrial) : Option Bool :=
  let n_trials := completedCount study
  if n_trials = 0 then some false
  else if (n_trials : Int) < pruner.n_startup_trials then some false
  else
    match trial.last_step with
    | none => some false
    | some step =>
      if step ≤ pruner.n_warmup_steps then some false
      else prune_after_warmup pruner study trial step

/-- A concrete trial with the given state and intermediate values; the
remaining record fields are irrelevant to the pruner. -/
def mkTrial (state : TrialState) (iv : List (Int × Val)) : FrozenTrial :=
  ⟨0, state, none, some 0, none, [], [], [], [], iv, 0⟩

/-! ## General lemmas about the control flow of `prune` -/

/-- When the startup, report and warmup gates all pass, `prune` continues
with the interval-step check and the tail of the method. -/
theorem prune_eq_after_warmup (pruner : PercentilePruner) (study : Study)
    (trial : FrozenTrial) (step : Int)
    (h0 : completedCount study ≠ 0)
    (h1 : ¬ ((completedCount study : Int) < pruner.n_startup_trials))
    (h2 : trial.last_step = some step)
    (h3 : ¬ step ≤ pruner.n_warmup_steps) :
    pruner.prune study trial = prune_after_warmup pruner study trial step := by
  unfold PercentilePruner.prune
  rw [if_neg h0, if_neg h1, h2]
  exact if_neg h3

/-- A trial that has reported at least one intermediate value has a
nonempty `intermediate_values` list. -/
theorem intermediate_values_ne_nil_of_last_step (trial : FrozenTrial) (step : Int)
    (h : trial.last_step = some step) : trial.intermediate_values ≠ [] := by
  intro hnil
  simp [FrozenTrial.last_step, hnil] at h

/-- `_is_first_in_interval_step` never raises when the warmup and interval
bounds hold and the step has passed warmup: the assertion
`nearest_lower_pruning_step >= 0` is satisfied. -/
theorem is_first_in_interval_step_eq (step : Int) (steps : List Int)
    (w i : Int) (hw : 0 ≤ w) (hi : 1 ≤ i) (hs : w < step) :
    _is_first_in_interval_step step steps w i =
      some (decide (steps.foldl
          (fun second_last s => if second_last < s ∧ s ≠ step then s else second_last) (-1)
        < (step - w - 1).fdiv i * i + w + 1)) := by
  unfold _is_first_in_interval_step
  have hi0 : i ≠ 0 := by omega
  have hfd : 0 ≤ (step - w - 1).fdiv i := Int.fdiv_nonneg (by omega) (by omega)
  have hpos : ¬ ((step - w - 1).fdiv i * i + w + 1 < 0) := by
    have : 0 ≤ (step - w - 1).fdiv i * i := mul_nonneg hfd (by omega)
    omega
  rw [if_neg hi0, if_neg hpos]

/-! ## Claim theorems -/

/-- Claim C6: with zero completed trials, or fewer completed trials than
`n_startup_trials`, `prune` returns false regardless of percentile,
direction or the running trial's reports. -/
theorem prune_startup_gate (pruner : PercentilePruner) (study : Study)
    (trial : FrozenTrial)
    (h : completedCount study = 0 ∨
      (completedCount study : Int) < pruner.n_startup_trials) :
    pruner.prune study trial = some false := by
  unfold PercentilePruner.prune
  rcases h with h | h
  · rw [if_pos h]
  · by_cases h0 : completedCount study = 0
    · rw [if_pos h0]
    · rw [if_neg h0, if_pos h]

/-- Claim C6 witness: a snapshot with no trials at all. -/
theorem prune_startup_gate_witness :
    PercentilePruner.prune ⟨25, 5, 0, 1⟩ ⟨[], StudyDirection.minimize⟩
      (mkTrial TrialState.running [(1, Val.num 5)]) = some false :=
  prune_startup_gate _ _ _ (Or.inl (by decide))

/-- Claim C7: a trial with no reported intermediate value is never pruned;
a trial whose latest step is at most `n_warmup_steps` is never pruned; a
trial whose latest step is `n_warmup_steps + 1` passes both of these gates
(so `prune` continues with the interval-step check). -/
theorem prune_warmup_gate (pruner : PercentilePruner) (study : Study)
    (trial : FrozenTrial) :
    (trial.last_step = none → pruner.prune study trial = some false)
    ∧ (∀ step, trial.last_step = some step → step ≤ pruner.n_warmup_steps →
        pruner.prune study trial = some false)
    ∧ (completedCount study ≠ 0 →
        ¬ ((completedCount study : Int) < pruner.n_startup_trials) →
        trial.last_step = some (pruner.n_warmup_steps + 1) →
        pruner.prune study trial =
          prune_after_warmup pruner study trial (pruner.n_warmup_steps + 1)) := by
  refine ⟨fun h => ?_, fun step hstep hle => ?_, fun h0 h1 h2 => ?_⟩
  · simp [PercentilePruner.prune, h]
  · simp [PercentilePruner.prune, hstep, hle]
  · exact prune_eq_after_warmup pruner study trial _ h0 h1 h2 (by omega)

/-- Claim C7 witness: instantiated at a trial with no reports, a warmup
trial at step 3 with `n_warmup_steps = 3`, and an eligible trial at
step 4. -/
theorem prune_warmup_gate_witness :
    (PercentilePruner.prune ⟨25, 1, 3, 1⟩
        ⟨[mkTrial TrialState.complete [(4, Val.num 1)]], StudyDirection.minimize⟩
        (mkTrial TrialState.running []) = some false)
    ∧ (PercentilePruner.prune ⟨25, 1, 3, 1⟩
        ⟨[mkTrial TrialState.complete [(4, Val.num 1)]], StudyDirection.minimize⟩
        (mkTrial TrialState.running [(3, Val.num 5)]) = some false)
    ∧ (PercentilePruner.prune ⟨25, 1, 3, 1⟩
        ⟨[mkTrial TrialState.complete [(4, Val.num 1)]], StudyDirection.minimize⟩
        (mkTrial TrialState.running [(4, Val.num 5)]) =
      prune_after_warmup ⟨25, 1, 3, 1⟩
        ⟨[mkTrial TrialState.complete [(4, Val.num 1)]], StudyDirection.minimize⟩
        (mkTrial TrialState.running [(4, Val.num 5)]) 4) :=
  ⟨(prune_warmup_gate _ _ _).1 rfl,
   (prune_warmup_gate _ _ _).2.1 3 rfl (by decide),
   (prune_warmup_gate _ _ _).2.2 (by decide) (by decide) rfl⟩

/-- Claim C1: end-to-end MINIMIZE scenario with `percentile = 25`,
`n_startup_trials = 2`, two completed trials reporting 10 and 20 at
step 1 (25th percentile 12.5): a running trial at 15 is pruned, one at 5
is not. -/
theorem prune_end_to_end :
    (PercentilePruner.prune ⟨25, 2, 0, 1⟩
        ⟨[mkTrial TrialState.complete [(1, Val.num 10)],
          mkTrial TrialState.complete [(1, Val.num 20)]], StudyDirection.minimize⟩
        (mkTrial TrialState.running [(1, Val.num 15)]) = some true)
    ∧ (PercentilePruner.prune ⟨25, 2, 0, 1⟩
        ⟨[mkTrial TrialState.complete [(1, Val.num 10)],
          mkTrial TrialState.complete [(1, Val.num 20)]], StudyDirection.minimize⟩
        (mkTrial TrialState.running [(1, Val.num 5)]) = some false) := by
  constructor <;>
    norm_num +decide [PercentilePruner.prune, prune_after_warmup, prune_after_interval,
      prune_after_best,
      _is_first_in_interval_step, _get_best_intermediate_result_over_steps,
      _get_percentile_intermediate_result_over_trials, nanpercentile,
      completedCount, completedTrials, valuesAtStep, mkTrial,
      FrozenTrial.last_step, Val.lt, Val.toNum, Val.isNan,
      List.insertionSort, List.orderedInsert, List.lookup, List.filterMap,
      List.filter, List.foldl, Int.fdiv]

/-- Claim C3: a running trial at its latest step is evaluated for pruning
iff the largest other step it has reported is strictly below the nearest
lower pruning boundary; with `interval_steps = 2` and `n_warmup_steps = 0`
a trial reporting at steps 1..5 in order is evaluated exactly at 1, 3
and 5. -/
theorem prune_interval_gate (pruner : PercentilePruner) (study : Study)
    (trial : FrozenTrial) (step : Int)
    (h0 : completedCount study ≠ 0)
    (h1 : ¬ ((completedCount study : Int) < pruner.n_startup_trials))
    (h2 : trial.last_step = some step)
    (h3 : ¬ step ≤ pruner.n_warmup_steps)
    (hw : 0 ≤ pruner.n_warmup_steps) (hi : 1 ≤ pruner.interval_steps) :
    (pruner.prune study trial =
      if (trial.intermediate_values.map Prod.fst).foldl
            (fun second_last s => if second_last < s ∧ s ≠ step then s else second_last) (-1)
          < (step - pruner.n_warmup_steps - 1).fdiv pruner.interval_steps
              * pruner.interval_steps + pruner.n_warmup_steps + 1
        then prune_after_interval pruner study trial step
        else some false)
    ∧ (_is_first_in_interval_step 1 [1] 0 2 = some true
      ∧ _is_first_in_interval_step 2 [1, 2] 0 2 = some false
      ∧ _is_first_in_interval_step 3 [1, 2, 3] 0 2 = some true
      ∧ _is_first_in_interval_step 4 [1, 2, 3, 4] 0 2 = some false
      ∧ _is_first_in_interval_step 5 [1, 2, 3, 4, 5] 0 2 = some true) := by
  constructor
  · rw [prune_eq_after_warmup pruner study trial step h0 h1 h2 h3]
    unfold prune_after_warmup
    rw [is_first_in_interval_step_eq _ _ _ _ hw hi (by omega)]
    by_cases hc : (trial.intermediate_values.map Prod.fst).foldl
          (fun second_last s => if second_last < s ∧ s ≠ step then s else second_last) (-1)
        < (step - pruner.n_warmup_steps - 1).fdiv pruner.interval_steps
            * pruner.interval_steps + pruner.n_warmup_steps + 1
    · simp [hc]
    · simp [hc]
  · decide

/-- Claim C3 witness: with `interval_steps = 2`, a trial whose reports are
at steps 1 and 2 (latest step 2) is not evaluated, so it is not pruned. -/
theorem prune_interval_gate_witness :
    PercentilePruner.prune ⟨25, 1, 0, 2⟩
      ⟨[mkTrial TrialState.complete [(2, Val.num 1)]], StudyDirection.minimize⟩
      (mkTrial TrialState.running [(1, Val.num 5), (2, Val.num 5)]) = some false := by
  have h := (prune_interval_gate ⟨25, 1, 0, 2⟩
    ⟨[mkTrial TrialState.complete [(2, Val.num 1)]], StudyDirection.minimize⟩
    (mkTrial TrialState.running [(1, Val.num 5), (2, Val.num 5)]) 2
    (by decide) (by decide) rfl (by decide) (by decide) (by decide)).1
  simpa using h

/-- Claim C9: `PercentilePruner` construction fails iff the percentile is
outside `[0, 100]`, `n_startup_trials` or `n_warmup_steps` is negative, or
`interval_steps` is below 1; within bounds the four parameters are stored
unchanged. -/
theorem init_validation (p : ℚ) (s w i : Int) :
    ((∃ e, PercentilePruner.init p s w i = Except.error e) ↔
      (p < 0 ∨ 100 < p ∨ s < 0 ∨ w < 0 ∨ i < 1))
    ∧ (0 ≤ p → p ≤ 100 → 0 ≤ s → 0 ≤ w → 1 ≤ i →
      PercentilePruner.init p s w i = Except.ok ⟨p, s, w, i⟩) := by
  have hok : ∀ (_ : 0 ≤ p) (_ : p ≤ 100) (_ : 0 ≤ s) (_ : 0 ≤ w) (_ : 1 ≤ i),
      PercentilePruner.init p s w i = Except.ok ⟨p, s, w, i⟩ := by
    intro hp0 hp1 hs hw hi
    unfold PercentilePruner.init
    rw [if_neg (not_not_intro ⟨hp0, hp1⟩), if_neg (by omega), if_neg (by omega),
      if_neg (by omega)]
  refine ⟨⟨fun he => ?_, fun hdisj => ?_⟩, hok⟩
  · by_contra hc
    push_neg at hc
    obtain ⟨hp0, hp1, hs, hw, hi⟩ := hc
    obtain ⟨e, he⟩ := he
    rw [hok hp0 hp1 hs hw hi] at he
    exact Except.noConfusion he
  · unfold PercentilePruner.init
    by_cases hp : ¬ (0 ≤ p ∧ p ≤ 100)
    · exact ⟨_, if_pos hp⟩
    · rw [if_neg hp]
      by_cases hs : s < 0
      · exact ⟨_, if_pos hs⟩
      · rw [if_neg hs]
        by_cases hw : w < 0
        · exact ⟨_, if_pos hw⟩
        · rw [if_neg hw]
          by_cases hi : i < 1
          · exact ⟨_, if_pos hi⟩
          · exfalso
            push_neg at hp
            rcases hdisj with h | h | h | h | h
            · linarith [hp.1]
            · linarith [hp.2]
            · omega
            · omega
            · omega

/-- Claim C9 witness: the documented configuration `PercentilePruner(25.0)`
with its default startup, warmup and interval parameters constructs
successfully and stores the parameters unchanged. -/
theorem init_validation_witness :
    PercentilePruner.init 25 5 0 1 = Except.ok ⟨25, 5, 0, 1⟩ :=
  (init_validation 25 5 0 1).2 (by norm_num) (by norm_num) (by omega) (by omega)
    (by omega)

/-- When additionally the interval-step gate passes, `prune` continues
with the best-value / percentile tail of the method. -/
theorem prune_eq_after_interval (pruner : PercentilePruner) (study : Study)
    (trial : FrozenTrial) (step : Int)
    (h0 : completedCount study ≠ 0)
    (h1 : ¬ ((completedCount study : Int) < pruner.n_startup_trials))
    (h2 : trial.last_step = some step)
    (h3 : ¬ step ≤ pruner.n_warmup_steps)
    (h4 : _is_first_in_interval_step step (trial.intermediate_values.map Prod.fst)
      pruner.n_warmup_steps pruner.interval_steps = some true) :
    pruner.prune study trial = prune_after_interval pruner study trial step := by
  rw [prune_eq_after_warmup pruner study trial step h0 h1 h2 h3]
  unfold prune_after_warmup
  rw [h4]
  rfl

/-- A snapshot with a nonzero completed count has a nonempty completed
list. -/
theorem completed_not_isEmpty (study : Study) (h0 : completedCount study ≠ 0) :
    (completedTrials study.trials).isEmpty = false := by
  cases hl : completedTrials study.trials with
  | nil => exact absurd (by simp [completedCount, hl]) h0
  | cons a l => rfl

/-- NaN is NaN. -/
theorem Val.isNan_nan : Val.nan.isNan = true := rfl

/-- A numeric value is not NaN. -/
theorem Val.isNan_num (q : ℚ) : (Val.num q).isNan = false := rfl

/-- NaN has no numeric payload. -/
theorem Val.toNum_nan : Val.nan.toNum = none := rfl

/-- The payload of a numeric value. -/
theorem Val.toNum_num (q : ℚ) : (Val.num q).toNum = some q := rfl

/-- The strict float comparison on two numeric values. -/
theorem Val.lt_num (a b : ℚ) : (Val.num a).lt (Val.num b) = decide (a < b) := rfl

/-- If every reported value is NaN, the ignore-NaN reduction sees an empty
list. -/
theorem filterMap_toNum_all_nan (iv : List (Int × Val))
    (h : ∀ v ∈ iv, v.2 = Val.nan) :
    (iv.map Prod.snd).filterMap Val.toNum = [] := by
  induction iv with
  | nil => rfl
  | cons a t ih =>
    have ha := h a (by simp)
    simp [ha, Val.toNum_nan, ih (fun v hv => h v (by simp [hv]))]

/-- Dropping the NaN entries of the report list does not change the
ignore-NaN reduction's input. -/
theorem filterMap_toNum_filter_not_nan (iv : List (Int × Val)) :
    ((iv.filter (fun v => !v.2.isNan)).map Prod.snd).filterMap Val.toNum
      = (iv.map Prod.snd).filterMap Val.toNum := by
  rw [List.filterMap_map, List.filterMap_map]
  induction iv with
  | nil => rfl
  | cons a t ih =>
    cases ha : a.2 with
    | nan => simp [List.filter_cons, ha, Function.comp, Val.isNan_nan, Val.toNum_nan, ih]
    | num q => simp [List.filter_cons, ha, Function.comp, Val.isNan_num, Val.toNum_num, ih]

/-- If some reported value is not NaN, the ignore-NaN reduction's input is
nonempty. -/
theorem filterMap_toNum_ne_nil (iv : List (Int × Val))
    (h : ∃ v ∈ iv, v.2 ≠ Val.nan) :
    (iv.map Prod.snd).filterMap Val.toNum ≠ [] := by
  obtain ⟨v, hv, hnan⟩ := h
  cases hval : v.2 with
  | nan => exact absurd hval hnan
  | num q =>
    intro hnil
    have hmem : q ∈ (iv.map Prod.snd).filterMap Val.toNum :=
      List.mem_filterMap.2 ⟨v.2, List.mem_map_of_mem _ hv, by rw [hval]; rfl⟩
    rw [hnil] at hmem
    exact absurd hmem (List.not_mem_nil q)

/-- `_get_best_intermediate_result_over_steps` on a trial with at least
one report, expressed through the NaN-free value list. -/
theorem get_best_eq (t : FrozenTrial) (dir : StudyDirection)
    (hne : t.intermediate_values ≠ []) :
    _get_best_intermediate_result_over_steps t dir =
      match (t.intermediate_values.map Prod.snd).filterMap Val.toNum with
      | [] => some Val.nan
      | q :: qs =>
        if dir = StudyDirection.maximize then some (Val.num (qs.foldl max q))
        else some (Val.num (qs.foldl min q)) := by
  unfold _get_best_intermediate_result_over_steps
  cases hiv : t.intermediate_values with
  | nil => exact absurd hiv hne
  | cons a l => rfl

/-- `_get_best_intermediate_result_over_steps` never raises on a trial
with at least one report. -/
theorem get_best_isSome (t : FrozenTrial) (dir : StudyDirection)
    (hne : t.intermediate_values ≠ []) :
    ∃ v, _get_best_intermediate_result_over_steps t dir = some v := by
  rw [get_best_eq t dir hne]
  split
  · exact ⟨_, rfl⟩
  · split
    · exact ⟨_, rfl⟩
    · exact ⟨_, rfl⟩

/-- `np.nanpercentile` with an in-range percentile never raises. -/
theorem nanpercentile_isSome (values : List Val) (q : ℚ)
    (h0 : 0 ≤ q) (h1 : q ≤ 100) :
    ∃ v, nanpercentile values q = some v := by
  unfold nanpercentile
  rw [if_neg (by rintro (h | h) <;> linarith)]
  split
  · exact ⟨_, rfl⟩
  · exact ⟨_, rfl⟩

/-- `np.nanpercentile` of an empty array with an in-range percentile is
NaN. -/
theorem nanpercentile_nil (q : ℚ) (h0 : 0 ≤ q) (h1 : q ≤ 100) :
    nanpercentile [] q = some Val.nan := by
  unfold nanpercentile
  rw [if_neg (by rintro (h | h) <;> linarith)]
  rfl

/-- Claim C2: at the final decision step, for MAXIMIZE the threshold
equals the (100 - percentile)-th percentile of the completed trials'
values at the current step and the trial is pruned iff its best value is
strictly below it; for MINIMIZE the threshold is the percentile-th
percentile directly and the trial is pruned iff its best value is strictly
above it; an exact tie is never pruned. -/
theorem prune_direction_symmetry (pruner : PercentilePruner) (study : Study)
    (trial : FrozenTrial) (step : Int) (bq thr : ℚ)
    (h0 : completedCount study ≠ 0)
    (h1 : ¬ ((completedCount study : Int) < pruner.n_startup_trials))
    (h2 : trial.last_step = some step)
    (h3 : ¬ step ≤ pruner.n_warmup_steps)
    (h4 : _is_first_in_interval_step step (trial.intermediate_values.map Prod.fst)
      pruner.n_warmup_steps pruner.interval_steps = some true)
    (h5 : _get_best_intermediate_result_over_steps trial study.direction
      = some (Val.num bq))
    (h6 : _get_percentile_intermediate_result_over_trials study.trials
      study.direction step pruner.percentile = some (Val.num thr)) :
    (study.direction = StudyDirection.maximize →
      _get_percentile_intermediate_result_over_trials study.trials
          study.direction step pruner.percentile
        = nanpercentile (valuesAtStep study.trials step) (100 - pruner.percentile)
      ∧ pruner.prune study trial = some (decide (bq < thr)))
    ∧ (study.direction = StudyDirection.minimize →
      _get_percentile_intermediate_result_over_trials study.trials
          study.direction step pruner.percentile
        = nanpercentile (valuesAtStep study.trials step) pruner.percentile
      ∧ pruner.prune study trial = some (decide (thr < bq)))
    ∧ (bq = thr → pruner.prune study trial = some false) := by
  have hcore : pruner.prune study trial =
      (if study.direction = StudyDirection.maximize
        then some (Val.lt (Val.num bq) (Val.num thr))
        else some (Val.lt (Val.num thr) (Val.num bq))) := by
    rw [prune_eq_after_interval pruner study trial step h0 h1 h2 h3 h4]
    unfold prune_after_interval prune_after_best
    rw [h5, h6]
    simp [Val.isNan_num]
  have hthr : _get_percentile_intermediate_result_over_trials study.trials
      study.direction step pruner.percentile
    = nanpercentile (valuesAtStep study.trials step)
        (if study.direction = StudyDirection.maximize then 100 - pruner.percentile
          else pruner.percentile) := by
    unfold _get_percentile_intermediate_result_over_trials
    rw [completed_not_isEmpty study h0]
    simp
  refine ⟨fun hmax => ⟨?_, ?_⟩, fun hmin => ⟨?_, ?_⟩, fun heq => ?_⟩
  · rw [hthr, if_pos hmax]
  · rw [hcore, if_pos hmax, Val.lt_num]
  · rw [hthr, if_neg (by simp [hmin])]
  · rw [hcore, if_neg (by simp [hmin]), Val.lt_num]
  · subst heq
    rw [hcore]
    split <;> simp [Val.lt_num]

/-- Claim C2 witness: in the MINIMIZE scenario with completed values 10
and 20 at step 1 (threshold 12.5), a running trial reporting exactly 12.5
ties with the threshold and is not pruned. -/
theorem prune_direction_symmetry_witness :
    PercentilePruner.prune ⟨25, 2, 0, 1⟩
      ⟨[mkTrial TrialState.complete [(1, Val.num 10)],
        mkTrial TrialState.complete [(1, Val.num 20)]], StudyDirection.minimize⟩
      (mkTrial TrialState.running [(1, Val.num (25/2))]) = some false :=
  (prune_direction_symmetry ⟨25, 2, 0, 1⟩
    ⟨[mkTrial TrialState.complete [(1, Val.num 10)],
      mkTrial TrialState.complete [(1, Val.num 20)]], StudyDirection.minimize⟩
    (mkTrial TrialState.running [(1, Val.num (25/2))]) 1 (25/2) (25/2)
    (by decide) (by decide) rfl (by decide) (by decide) rfl
    (by norm_num +decide [_get_percentile_intermediate_result_over_trials,
      nanpercentile, valuesAtStep, completedTrials, mkTrial, Val.toNum,
      List.insertionSort, List.orderedInsert, List.lookup, List.filterMap,
      List.filter])).2.2 rfl

/-- Claim C4: past all gates, a trial all of whose reports are NaN has a
NaN best value and is pruned unconditionally; if at least one report is
numeric, the NaN reports are ignored by the best-value reduction (dropping
them changes nothing) and the NaN prune branch is skipped in favour of the
percentile comparison. -/
theorem prune_nan_handling (pruner : PercentilePruner) (study : Study)
    (trial : FrozenTrial) (step : Int)
    (h0 : completedCount study ≠ 0)
    (h1 : ¬ ((completedCount study : Int) < pruner.n_startup_trials))
    (h2 : trial.last_step = some step)
    (h3 : ¬ step ≤ pruner.n_warmup_steps)
    (h4 : _is_first_in_interval_step step (trial.intermediate_values.map Prod.fst)
      pruner.n_warmup_steps pruner.interval_steps = some true) :
    ((∀ v ∈ trial.intermediate_values, v.2 = Val.nan) →
      _get_best_intermediate_result_over_steps trial study.direction = some Val.nan
      ∧ pruner.prune study trial = some true)
    ∧ ((∃ v ∈ trial.intermediate_values, v.2 ≠ Val.nan) →
      ∃ bq, _get_best_intermediate_result_over_steps trial study.direction
          = some (Val.num bq)
        ∧ _get_best_intermediate_result_over_steps
            { trial with intermediate_values :=
                trial.intermediate_values.filter (fun v => !v.2.isNan) }
            study.direction = some (Val.num bq)
        ∧ pruner.prune study trial
            = prune_after_best pruner study step (Val.num bq)) := by
  have hne := intermediate_values_ne_nil_of_last_step trial step h2
  have hpr := prune_eq_after_interval pruner study trial step h0 h1 h2 h3 h4
  constructor
  · intro hall
    have hb : _get_best_intermediate_result_over_steps trial study.direction
        = some Val.nan := by
      rw [get_best_eq trial study.direction hne, filterMap_toNum_all_nan _ hall]
    refine ⟨hb, ?_⟩
    rw [hpr]
    unfold prune_after_interval
    rw [hb]
    simp [Val.isNan_nan]
  · intro hex
    have hfm := filterMap_toNum_ne_nil trial.intermediate_values hex
    cases hl : (trial.intermediate_values.map Prod.snd).filterMap Val.toNum with
    | nil => exact absurd hl hfm
    | cons q qs =>
      have hb : _get_best_intermediate_result_over_steps trial study.direction
          = some (Val.num (if study.direction = StudyDirection.maximize
              then qs.foldl max q else qs.foldl min q)) := by
        rw [get_best_eq trial study.direction hne, hl]
        by_cases hd : study.direction = StudyDirection.maximize <;> simp [hd]
      have hne2 : trial.intermediate_values.filter (fun v => !v.2.isNan) ≠ [] := by
        intro hnil
        apply hfm
        rw [← filterMap_toNum_filter_not_nan, hnil]
        rfl
      have hb2 : _get_best_intermediate_result_over_steps
          { trial with intermediate_values :=
              trial.intermediate_values.filter (fun v => !v.2.isNan) }
          study.direction
          = some (Val.num (if study.direction = StudyDirection.maximize
              then qs.foldl max q else qs.foldl min q)) := by
        rw [get_best_eq _ study.direction hne2]
        have hproj : ({ trial with intermediate_values :=
            trial.intermediate_values.filter (fun v => !v.2.isNan) } :
              FrozenTrial).intermediate_values
            = trial.intermediate_values.filter (fun v => !v.2.isNan) := rfl
        rw [hproj, filterMap_toNum_filter_not_nan, hl]
        by_cases hd : study.direction = StudyDirection.maximize <;> simp [hd]
      refine ⟨_, hb, hb2, ?_⟩
      rw [hpr]
      unfold prune_after_interval
      rw [hb]
      simp [Val.isNan_num]

/-- Claim C4 witness: a running trial whose only report is NaN is pruned
once the startup, warmup and interval gates pass. -/
theorem prune_nan_handling_witness :
    _get_best_intermediate_result_over_steps
        (mkTrial TrialState.running [(1, Val.nan)]) StudyDirection.minimize
      = some Val.nan
    ∧ PercentilePruner.prune ⟨25, 1, 0, 1⟩
        ⟨[mkTrial TrialState.complete [(1, Val.num 10)]], StudyDirection.minimize⟩
        (mkTrial TrialState.running [(1, Val.nan)]) = some true :=
  (prune_nan_handling ⟨25, 1, 0, 1⟩
    ⟨[mkTrial TrialState.complete [(1, Val.num 10)]], StudyDirection.minimize⟩
    (mkTrial TrialState.running [(1, Val.nan)]) 1
    (by decide) (by decide) rfl (by decide) (by decide)).1 (by decide)

/-- Claim C5: once `prune` reaches the percentile computation, a step at
which no completed trial reported a value gives an undefined (NaN)
percentile and `prune` returns false; likewise a NaN threshold makes
`prune` return false — in neither case is an error raised. -/
theorem prune_undefined_statistic (pruner : PercentilePruner) (study : Study)
    (trial : FrozenTrial) (step : Int) (bq : ℚ)
    (hp0 : 0 ≤ pruner.percentile) (hp1 : pruner.percentile ≤ 100)
    (h0 : completedCount study ≠ 0)
    (h1 : ¬ ((completedCount study : Int) < pruner.n_startup_trials))
    (h2 : trial.last_step = some step)
    (h3 : ¬ step ≤ pruner.n_warmup_steps)
    (h4 : _is_first_in_interval_step step (trial.intermediate_values.map Prod.fst)
      pruner.n_warmup_steps pruner.interval_steps = some true)
    (h5 : _get_best_intermediate_result_over_steps trial study.direction
      = some (Val.num bq)) :
    (valuesAtStep study.trials step = [] → pruner.prune study trial = some false)
    ∧ (_get_percentile_intermediate_result_over_trials study.trials
        study.direction step pruner.percentile = some Val.nan →
      pruner.prune study trial = some false) := by
  have hcore : pruner.prune study trial
      = prune_after_best pruner study step (Val.num bq) := by
    rw [prune_eq_after_interval pruner study trial step h0 h1 h2 h3 h4]
    unfold prune_after_interval
    rw [h5]
    simp [Val.isNan_num]
  constructor
  · intro hempty
    have hq : _get_percentile_intermediate_result_over_trials study.trials
        study.direction step pruner.percentile = some Val.nan := by
      unfold _get_percentile_intermediate_result_over_trials
      rw [completed_not_isEmpty study h0]
      simp only [Bool.false_eq_true, if_false]
      rw [hempty]
      by_cases hd : study.direction = StudyDirection.maximize
      · rw [if_pos hd]
        exact nanpercentile_nil _ (by linarith) (by linarith)
      · rw [if_neg hd]
        exact nanpercentile_nil _ hp0 hp1
    rw [hcore]
    unfold prune_after_best
    rw [hq]
    simp [Val.isNan_nan]
  · intro hq
    rw [hcore]
    unfold prune_after_best
    rw [hq]
    simp [Val.isNan_nan]

/-- Claim C5 witness: the only completed trial reported at step 2, so no
completed value exists at the running trial's step 1 and the trial is not
pruned. -/
theorem prune_undefined_statistic_witness :
    PercentilePruner.prune ⟨25, 1, 0, 1⟩
      ⟨[mkTrial TrialState.complete [(2, Val.num 10)]], StudyDirection.minimize⟩
      (mkTrial TrialState.running [(1, Val.num 5)]) = some false :=
  (prune_undefined_statistic ⟨25, 1, 0, 1⟩
    ⟨[mkTrial TrialState.complete [(2, Val.num 10)]], StudyDirection.minimize⟩
    (mkTrial TrialState.running [(1, Val.num 5)]) 1 5
    (by norm_num) (by norm_num)
    (by decide) (by decide) rfl (by decide) (by decide) rfl).1 (by decide)

/-- Claim C10: for a validly configured pruner, `prune` never raises: the
"No trials have been completed" `ValueError` is unreachable and the
`nearest_lower_pruning_step >= 0` assertion always holds. -/
theorem prune_never_raises (pruner : PercentilePruner) (study : Study)
    (trial : FrozenTrial)
    (hp0 : 0 ≤ pruner.percentile) (hp1 : pruner.percentile ≤ 100)
    (hw : 0 ≤ pruner.n_warmup_steps) (hi : 1 ≤ pruner.interval_steps) :
    ∃ b, pruner.prune study trial = some b := by
  by_cases h0 : completedCount study = 0
  · exact ⟨false, by unfold PercentilePruner.prune; rw [if_pos h0]⟩
  · by_cases h1 : (completedCount study : Int) < pruner.n_startup_trials
    · exact ⟨false, by unfold PercentilePruner.prune; rw [if_neg h0, if_pos h1]⟩
    · cases hls : trial.last_step with
      | none =>
        exact ⟨false, by unfold PercentilePruner.prune; rw [if_neg h0, if_neg h1, hls]⟩
      | some step =>
        by_cases h3 : step ≤ pruner.n_warmup_steps
        · refine ⟨false, ?_⟩
          unfold PercentilePruner.prune
          rw [if_neg h0, if_neg h1, hls]
          exact if_pos h3
        · rw [prune_eq_after_warmup pruner study trial step h0 h1 hls h3]
          unfold prune_after_warmup
          rw [is_first_in_interval_step_eq _ _ _ _ hw hi (by omega)]
          have hafter : ∃ b, prune_after_interval pruner study trial step = some b := by
            have hne := intermediate_values_ne_nil_of_last_step trial step hls
            obtain ⟨best, hbest⟩ := get_best_isSome trial study.direction hne
            unfold prune_after_interval
            rw [hbest]
            cases best with
            | nan => exact ⟨true, by simp [Val.isNan_nan]⟩
            | num bq =>
              have hpv : ∃ v, _get_percentile_intermediate_result_over_trials
                  study.trials study.direction step pruner.percentile = some v := by
                unfold _get_percentile_intermediate_result_over_trials
                rw [completed_not_isEmpty study h0]
                simp only [Bool.false_eq_true, if_false]
                by_cases hd : study.direction = StudyDirection.maximize
                · rw [if_pos hd]
                  exact nanpercentile_isSome _ _ (by linarith) (by linarith)
                · rw [if_neg hd]
                  exact nanpercentile_isSome _ _ hp0 hp1
              obtain ⟨pv, hpvv⟩ := hpv
              simp only [Val.isNan_num, Bool.false_eq_true, if_false]
              unfold prune_after_best
              rw [hpvv]
              cases pv with
              | nan => exact ⟨false, by simp [Val.isNan_nan]⟩
              | num pq =>
                by_cases hd : study.direction = StudyDirection.maximize
                · exact ⟨Val.lt (Val.num bq) (Val.num pq),
                    by simp [Val.isNan_num, hd]⟩
                · exact ⟨Val.lt (Val.num pq) (Val.num bq),
                    by simp [Val.isNan_num, hd]⟩
          obtain ⟨b, hb⟩ := hafter
          cases hdec : decide ((trial.intermediate_values.map Prod.fst).foldl
              (fun second_last s =>
                if second_last < s ∧ s ≠ step then s else second_last) (-1)
            < (step - pruner.n_warmup_steps - 1).fdiv pruner.interval_steps
                * pruner.interval_steps + pruner.n_warmup_steps + 1) with
          | false => exact ⟨false, rfl⟩
          | true => exact ⟨b, hb⟩

/-- Claim C10 witness: a default configuration on an empty snapshot
returns a boolean without raising. -/
theorem prune_never_raises_witness :
    ∃ b, PercentilePruner.prune ⟨25, 5, 0, 1⟩ ⟨[], StudyDirection.minimize⟩
      (mkTrial TrialState.running []) = some b :=
  prune_never_raises ⟨25, 5, 0, 1⟩ ⟨[], StudyDirection.minimize⟩
    (mkTrial TrialState.running []) (by norm_num) (by norm_num) (by decide) (by decide)

/-- A key occurring among an association list's keys has a successful
lookup. -/
theorem lookup_exists_of_mem_keys {β : Type} (l : List (String × β)) (a : String)
    (h : a ∈ l.map Prod.fst) : ∃ b, l.lookup a = some b := by
  induction l with
  | nil => simp at h
  | cons p t ih =>
    by_cases he : a = p.1
    · subst he
      exact ⟨p.2, by simp [List.lookup]⟩
    · have hmem : a ∈ t.map Prod.fst := by
        rcases List.mem_cons.1 h with h1 | h1
        · exact absurd h1 he
        · exact h1
      obtain ⟨b, hb⟩ := ih hmem
      have hbeq : (a == p.1) = false := beq_eq_false_iff_ne.2 he
      exact ⟨b, by simp [List.lookup, hbeq, hb]⟩

/-- The parameter loop of `_validate` succeeds iff every parameter's value
is contained in its distribution, provided every parameter name has a
distribution. -/
theorem checkParams_ok_iff (ps : List (String × ℚ))
    (ds : List (String × BaseDistribution))
    (hk : ∀ pv ∈ ps, ∃ d, ds.lookup pv.1 = some d) :
    checkParams ps ds = Except.ok () ↔
      ∀ pv ∈ ps, ∀ d, ds.lookup pv.1 = some d →
        d._contains (d.to_internal_repr pv.2) = true := by
  induction ps with
  | nil => simp [checkParams]
  | cons p t ih =>
    obtain ⟨d, hd⟩ := hk p (by simp)
    obtain ⟨n, v⟩ := p
    have hstep : checkParams ((n, v) :: t) ds =
        (if d._contains (d.to_internal_repr v) then checkParams t ds
          else Except.error ("The value of parameter " ++ n ++
            " is not contained in the distribution.")) := by
      have hd' : List.lookup n ds = some d := hd
      show (match ds.lookup n with
        | none => Except.error ("KeyError: " ++ n)
        | some d =>
          if d._contains (d.to_internal_repr v) then checkParams t ds
          else Except.error ("The value of parameter " ++ n ++
            " is not contained in the distribution.")) = _
      rw [hd']
    constructor
    · intro hok pv hpv d' hd'
      rcases List.mem_cons.1 hpv with heq | hpv'
      · subst heq
        rw [hd] at hd'
        injection hd' with hdd
        subst hdd
        by_contra hcf
        rw [hstep, if_neg hcf] at hok
        exact Except.noConfusion hok
      · have hok' : checkParams t ds = Except.ok () := by
          rw [hstep] at hok
          by_cases hc : d._contains (d.to_internal_repr v) = true
          · rwa [if_pos hc] at hok
          · rw [if_neg hc] at hok
            exact absurd hok (by simp)
        exact (ih (fun pv h => hk pv (by simp [h]))).1 hok' pv hpv' d' hd'
    · intro hall
      have hc : d._contains (d.to_internal_repr v) = true := hall (n, v) (by simp) d hd
      rw [hstep, if_pos hc]
      exact (ih (fun pv h => hk pv (by simp [h]))).2
        (fun pv h d' hd' => hall pv (by simp [h]) d' hd')

/-- Claim C8 counterexample: a PRUNED trial with `value` present (and all
other fields consistent) passes `_validate`, although the claim's
biconditional "value present iff state = COMPLETE" demands a validation
error here. -/
theorem validate_missing_value_check :
    FrozenTrial._validate
        ⟨0, TrialState.pruned, some 1, some 0, some 0, [], [], [], [], [], 0⟩
      = Except.ok ()
    ∧ TrialState.pruned ≠ TrialState.complete
    ∧ (some (1 : ℚ) ≠ (none : Option ℚ)) := by
  refine ⟨by rfl, by decide, by simp⟩

/-- Claim C8 (amended): `_validate` succeeds iff `datetime_start` is
present, `datetime_complete` is present exactly for finished states,
`value` is present whenever the state is COMPLETE (no check in the other
direction), the `params` and `distributions` key sets agree, and every
parameter value is contained in its distribution. -/
theorem validate_ok_iff (t : FrozenTrial) :
    FrozenTrial._validate t = Except.ok () ↔
      (t.datetime_start ≠ none
       ∧ (t.state.is_finished = true ↔ t.datetime_complete ≠ none)
       ∧ (t.state = TrialState.complete → t.value ≠ none)
       ∧ (t.params.map Prod.fst).toFinset = (t.distributions.map Prod.fst).toFinset
       ∧ ∀ pv ∈ t.params, ∀ d, t.distributions.lookup pv.1 = some d →
           d._contains (d.to_internal_repr pv.2) = true) := by
  unfold FrozenTrial._validate
  by_cases h1 : t.datetime_start = none
  · rw [if_pos h1]
    simp [h1]
  · rw [if_neg h1]
    by_cases h2 : t.state.is_finished ∧ t.datetime_complete = none
    · rw [if_pos h2]
      obtain ⟨h2a, h2b⟩ := h2
      simp [h2a, h2b]
    · rw [if_neg h2]
      by_cases h3 : ¬ t.state.is_finished ∧ t.datetime_complete ≠ none
      · rw [if_pos h3]
        obtain ⟨h3a, h3b⟩ := h3
        simp only [Bool.not_eq_true] at h3a
        simp [h3a, h3b]
      · rw [if_neg h3]
        by_cases h4 : t.state = TrialState.complete ∧ t.value = none
        · rw [if_pos h4]
          simp [h4.1, h4.2]
        · rw [if_neg h4]
          by_cases h5 : (t.params.map Prod.fst).toFinset
              ≠ (t.distributions.map Prod.fst).toFinset
          · rw [if_pos h5]
            simp [h5]
          · rw [if_neg h5]
            push_neg at h5
            have hk : ∀ pv ∈ t.params, ∃ d, t.distributions.lookup pv.1 = some d := by
              intro pv hpv
              apply lookup_exists_of_mem_keys
              have hmem : pv.1 ∈ t.params.map Prod.fst := List.mem_map_of_mem _ hpv
              have h6 : pv.1 ∈ (t.params.map Prod.fst).toFinset :=
                List.mem_toFinset.2 hmem
              rw [h5] at h6
              exact List.mem_toFinset.1 h6
            rw [checkParams_ok_iff t.params t.distributions hk]
            have hP2 : t.state.is_finished = true ↔ t.datetime_complete ≠ none := by
              constructor
              · intro hf hdc
                exact h2 ⟨hf, hdc⟩
              · intro hdc
                by_contra hnf
                exact h3 ⟨hnf, hdc⟩
            have hP3 : t.state = TrialState.complete → t.value ≠ none := by
              intro hc hv
              exact h4 ⟨hc, hv⟩
            constructor
            · intro ha
              exact ⟨h1, hP2, hP3, h5, ha⟩
            · intro h
              exact h.2.2.2.2

/-- Claim C8 (amended) witness: a fully consistent COMPLETE trial with one
in-range parameter passes `_validate`. -/
theorem validate_ok_iff_witness :
    FrozenTrial._validate
        ⟨0, TrialState.complete, some 1, some 0, some 0,
          [("x", 1)], [("x", ⟨id, fun _ => true⟩)], [], [], [], 0⟩
      = Except.ok () :=
  (validate_ok_iff _).2
    ⟨by simp, by simp [TrialState.is_finished], by simp, by simp,
      by
        intro pv hpv d hd
        simp at hpv
        subst hpv
        simp [List.lookup] at hd
        subst hd
        rfl⟩
